import Mathlib

/-!
Shallow embedding of the access-control, tree-integrity and quota logic of the
file-storage service (`app_file/models.py` and `app_file/views.py`).

Modelling conventions:
* Django model objects compare by primary key, so entities carry integer ids
  and object comparisons in the views are rendered as id comparisons.
* Binary file content is modelled by its byte length (`size : Nat`); the quota
  SQL `SUM(LENGTH(data))` becomes a sum over the sizes of the owner's files.
* Each Django `Directory` row holds a live reference to its parent row; this
  is rendered as a nested inductive (`parent : Option Dir`), which also bakes
  in that the persisted parent chains are finite.
* Exceptions raised by the `_verify_*` helpers and mapped by
  `AbstractView.handle` to response statuses are rendered as `Except Status`.
-/

namespace FileService

/-- `LIMIT_SINGLE_FILE_SIZE` from `views.py`: 128 MiB per-file cap. -/
def LIMIT_SINGLE_FILE_SIZE : Nat := 128 * 1024 * 1024

/-- `LIMIT_USER_TOTAL_SIZE` from `views.py`: 1 GiB per-user ceiling. -/
def LIMIT_USER_TOTAL_SIZE : Nat := 1024 * 1024 * 1024

/-- The response status taxonomy of `views.py` (the `STATUS_*` constants). -/
inductive Status where
  | ok
  | malformed_request
  | unauthorized
  | not_found
  | permission_denied
  | duplicate_name
  | transferral_rejected
  | cycle_detected
  | unmovable_directory
  | not_empty
  | invalid_subject
  | invalid_contact
  | quota_exceeded
  | internal_error
  deriving DecidableEq, Repr

/-- The part of a `Share` row relevant to `can_access` of its target:
the share's subject user and its write flag (`share_set.filter(subject=...)`
plus `share.can_write`). -/
structure ShareInfo where
  subject : Nat
  can_write : Bool
  deriving DecidableEq, Repr

/-- A `Directory` row together with the rows reachable from it: its id, name,
owner id, the shares targeting it, and its parent row (none for a root). -/
inductive Dir where
  | mk (id : Nat) (name : String) (owner : Nat) (shares : List ShareInfo)
      (parent : Option Dir)

def Dir.id : Dir → Nat
  | .mk i _ _ _ _ => i

def Dir.name : Dir → String
  | .mk _ n _ _ _ => n

def Dir.owner : Dir → Nat
  | .mk _ _ o _ _ => o

def Dir.shares : Dir → List ShareInfo
  | .mk _ _ _ s _ => s

def Dir.parent : Dir → Option Dir
  | .mk _ _ _ _ p => p

/-- `Directory.can_access` (`models.py` lines 45-58): the owner always has
permissions; otherwise the loop over the directory's shares with matching
subject returns true on a write-capable share, and on any matching share when
the request is a read; otherwise the decision recurses into the parent, and a
parentless directory denies. -/
def Dir.can_access : Dir → Nat → Bool → Bool
  | .mk _ _ owner shares parent, user_id, is_write =>
    if owner = user_id then
      true
    else if shares.any (fun s => s.subject = user_id && (s.can_write || !is_write)) then
      true
    else
      match parent with
      | some p => p.can_access user_id is_write
      | none => false

/-- A `File` row: id, name, owner id, the shares targeting it, the parent
directory row, and the byte length of its content. -/
structure FileEnt where
  id : Nat
  name : String
  owner : Nat
  shares : List ShareInfo
  parent_directory : Dir
  size : Nat

/-- `File.can_access` (`models.py` lines 79-90): owner always has permissions;
otherwise the file-targeted shares are examined like directory shares; if
unsettled, the decision is delegated to the parent directory. -/
def FileEnt.can_access (f : FileEnt) (user_id : Nat) (is_write : Bool) : Bool :=
  if f.owner = user_id then
    true
  else if f.shares.any (fun s => s.subject = user_id && (s.can_write || !is_write)) then
    true
  else
    f.parent_directory.can_access user_id is_write

/-- A `StorageUser` row, as far as `can_access` is concerned: its id. -/
structure UserEnt where
  id : Nat
  deriving DecidableEq, Repr

/-- `StorageUser.can_access` (`models.py` lines 21-22): read-only, and only by
the user themselves. -/
def UserEnt.can_access (u : UserEnt) (user_id : Nat) (is_write : Bool) : Bool :=
  !is_write && user_id = u.id

/-- A `Share` row, as far as `can_access` on the share itself is concerned:
issuer id and subject id. -/
structure ShareEnt where
  issuer : Nat
  subject : Nat
  deriving DecidableEq, Repr

/-- `Share.can_access` (`models.py` lines 112-117): the issuer may always
access; the subject may only read. -/
def ShareEnt.can_access (s : ShareEnt) (user_id : Nat) (is_write : Bool) : Bool :=
  if s.issuer = user_id then true
  else if !is_write && s.subject = user_id then true
  else false

/-- The closed set of entity kinds `_verify_can_access` dispatches over
(`Union[StorageUser, File, Directory, Share]`). -/
inductive Entity where
  | user (u : UserEnt)
  | dir (d : Dir)
  | file (f : FileEnt)
  | share (s : ShareEnt)

/-- Dynamic dispatch of `can_access` over the entity kind. -/
def Entity.can_access : Entity → Nat → Bool → Bool
  | .user u, uid, w => u.can_access uid w
  | .dir d, uid, w => d.can_access uid w
  | .file f, uid, w => f.can_access uid w
  | .share s, uid, w => s.can_access uid w

/-- `_verify_can_access` (`views.py` lines 516-524): a `None` object passes; a
caller without read permission gets `not_found` (existence is not confirmed);
a caller with read but without write permission on a write request gets
`permission_denied`. -/
def verify_can_access (user_id : Nat) (obj : Option Entity) (is_write : Bool) :
    Except Status Unit :=
  match obj with
  | none => .ok ()
  | some o =>
    if !(o.can_access user_id false) then .error .not_found
    else if is_write && !(o.can_access user_id true) then .error .permission_denied
    else .ok ()

/-- A `File` row as seen by the quota accountant: id, owner id, and the byte
length of its `data` column. -/
structure FileRec where
  id : Nat
  owner : Nat
  size : Nat
  deriving DecidableEq, Repr

/-- `_verify_quota` (`views.py` lines 556-567): the SQL
`SUM(LENGTH(data)) ... WHERE owner_id = user_id [AND id <> excluded]` rendered
as a filter/map/sum over the file table, followed by the strict comparison
`size + upload_size > LIMIT_USER_TOTAL_SIZE`. -/
def verify_quota (files : List FileRec) (user_id : Nat) (upload_size : Nat)
    (excluded_file_id : Option Nat) : Except Status Unit :=
  let size := ((files.filter (fun f => f.owner = user_id &&
      match excluded_file_id with
      | none => true
      | some e => f.id ≠ e)).map (fun f => f.size)).sum
  if size + upload_size > LIMIT_USER_TOTAL_SIZE then .error .quota_exceeded
  else .ok ()

/-- The QuotaAccountant usage figure as §4.4 of the spec words it: the sum of
byte-lengths of all files currently owned by `user_id`, excluding the file
being overwritten if one is specified. -/
def ownedUsage (files : List FileRec) (user_id : Nat) (excluded_file_id : Option Nat) :
    Nat :=
  (((files.filter (fun f => f.owner = user_id)).filter (fun f =>
      match excluded_file_id with
      | none => true
      | some e => f.id ≠ e)).map (fun f => f.size)).sum

/-- Total stored bytes attributed to a user: `ownedUsage` with no exclusion. -/
def totalOwnedSize (files : List FileRec) (user_id : Nat) : Nat :=
  ownedUsage files user_id none

/-- The commit phase of `FileView._handle_post` (`views.py` lines 135-141),
entered after authentication, parent write-access and sibling-name checks: the
per-file cap check on the raw body, then `_verify_quota(user_id, len(body))`
for the requesting user, then creation of the file row with
`owner=parent_directory.owner`. -/
def file_post_commit (files : List FileRec) (user_id : Nat) (parent_owner : Nat)
    (new_id : Nat) (body_len : Nat) : Except Status (List FileRec) :=
  if body_len > LIMIT_SINGLE_FILE_SIZE then .error .quota_exceeded
  else
    match verify_quota files user_id body_len none with
    | .error e => .error e
    | .ok () => .ok (⟨new_id, parent_owner, body_len⟩ :: files)

/-- The content-update branch of `FileView._handle_put` (`views.py` lines
173-177), entered after authentication and file write-access checks with
`writebody` set: `_verify_quota(user_id, len(body), file_id)` and then the
overwrite of the file's data. There is no per-file size-cap check on this
path. -/
def file_put_content (files : List FileRec) (user_id : Nat) (file_id : Nat)
    (body_len : Nat) : Except Status (List FileRec) :=
  match verify_quota files user_id body_len (some file_id) with
  | .error e => .error e
  | .ok () => .ok (files.map (fun f =>
      if f.id = file_id then ⟨f.id, f.owner, body_len⟩ else f))

/-- The `while target_dir is not None` loop of `_verify_movable` (`views.py`
lines 547-550): walk from the target directory up its parent chain and fail
with `cycle_detected` on encountering the directory being moved (Django model
equality is primary-key equality, hence the id comparison). -/
def cycle_walk (to_check_id : Nat) : Dir → Except Status Unit
  | .mk i _ _ _ parent =>
    if to_check_id = i then .error .cycle_detected
    else
      match parent with
      | none => .ok ()
      | some p => cycle_walk to_check_id p

/-- `_verify_movable` (`views.py` lines 544-550): a parentless (root) directory
is unmovable; otherwise the upward walk from the target parent must not
encounter the directory being moved. -/
def verify_movable (to_check : Dir) (target_dir : Dir) : Except Status Unit :=
  match to_check.parent with
  | none => .error .unmovable_directory
  | some _ => cycle_walk to_check.id target_dir

/-- `_verify_same_owner` (`views.py` lines 526-532) applied to the owner ids of
its arguments: zero or one argument passes; otherwise every owner must equal
the first. -/
def verify_same_owner : List Nat → Except Status Unit
  | [] => .ok ()
  | [_] => .ok ()
  | owner :: rest =>
    if rest.all (fun o => o = owner) then .ok ()
    else .error .transferral_rejected

/-- Replace a directory's parent reference (`directory.parent = target_dir`). -/
def Dir.setParent : Dir → Dir → Dir
  | .mk i n o s _, t => .mk i n o s (some t)

/-- The reparenting branch of `DirectoryView._handle_put` (`views.py` lines
244-250) after authentication and write-access checks, with a `parentDirectory`
parameter and no rename: `_verify_movable(directory, target_dir)`, then
`_verify_same_owner(directory, current_dir, target_dir)`, then the parent
pointer update when the target differs from the current parent. -/
def directory_move (directory : Dir) (target_dir : Dir) : Except Status Dir :=
  match verify_movable directory target_dir with
  | .error e => .error e
  | .ok () =>
    match directory.parent with
    | none => .error .unmovable_directory
    | some current =>
      match verify_same_owner [directory.owner, current.owner, target_dir.owner] with
      | .error e => .error e
      | .ok () =>
        if current.id = target_dir.id then .ok directory
        else .ok (directory.setParent target_dir)

/-- The ids on the parent chain of a directory, starting with its own id. -/
def Dir.chainIds : Dir → List Nat
  | .mk i _ _ _ parent =>
    i :: (match parent with
          | none => []
          | some p => p.chainIds)

/-- `x` is `d` itself or one of `d`'s current descendants: the parent chain of
`x` reaches `d`. -/
inductive Dir.DescOrSelf (d : Dir) : Dir → Prop
  | refl : Dir.DescOrSelf d d
  | step (i : Nat) (n : String) (o : Nat) (s : List ShareInfo) (p : Dir) :
      Dir.DescOrSelf d p → Dir.DescOrSelf d (.mk i n o s (some p))

/-- The target of a share creation request: exactly one of a directory or a
file (`targetType` in `ShareView._handle_post`). -/
inductive ShareTarget where
  | dir (d : Dir)
  | file (f : FileEnt)

def ShareTarget.owner : ShareTarget → Nat
  | .dir d => d.owner
  | .file f => f.owner

def ShareTarget.can_access : ShareTarget → Nat → Bool → Bool
  | .dir d, uid, w => d.can_access uid w
  | .file f, uid, w => f.can_access uid w

/-- The share row produced by a successful share creation. -/
structure ShareRec where
  issuer : Nat
  subject : Nat
  can_write : Bool
  deriving DecidableEq, Repr

/-- `ShareView._handle_post` (`views.py` lines 316-326) after parameter
parsing: `_verify_can_access(user_id, target, is_write=True)` (read failure is
`not_found`, write failure is `permission_denied`), then the explicit
ownership check raising `_ErrorAccessDenied`, then the `invalid_subject` check
for `subject == issuer`, then creation of the share. -/
def share_post (user_id : Nat) (subject_id : Nat) (target : ShareTarget)
    (can_write : Bool) : Except Status ShareRec :=
  if !(target.can_access user_id false) then .error .not_found
  else if !(target.can_access user_id true) then .error .permission_denied
  else if target.owner ≠ user_id then .error .permission_denied
  else if user_id = subject_id then .error .invalid_subject
  else .ok ⟨user_id, subject_id, can_write⟩

/-- `ContactView._handle_delete` (`views.py` lines 375-388): the contact list
of the requesting user is looked up with `user.contacts.get(id=contact_id)`,
which raises `ObjectDoesNotExist` (mapped to `not_found`) when no such contact
relation exists; only then is the relation removed. -/
def contact_delete (contacts : List Nat) (contact_id : Nat) :
    Except Status (List Nat) :=
  if contact_id ∈ contacts then .ok (contacts.filter (fun c => c ≠ contact_id))
  else .error .not_found

/-- `ACCESS_TOKEN_TYPE` from `views.py`. -/
def ACCESS_TOKEN_TYPE : String := "access"

/-- The claim set of a decoded token, with the claim types already checked
(`user_id:int, user_name:string, iat:int, exp:int, token_type:string`). -/
structure TokenClaims where
  user_id : Nat
  user_name : String
  iat : Nat
  exp : Nat
  token_type : String
  deriving DecidableEq, Repr

/-- The claim-validation tail of `_verify_authenticated` (`views.py` lines
485-498), after signature verification and claim-type checks: the `user_id`
claim must equal the user id named by the request, the current time must not
be after `exp` nor before `iat`, and the token type must be `"access"`. -/
def validate_claims (token : TokenClaims) (user_id : Nat) (now : Nat) :
    Except Status Unit :=
  if token.user_id ≠ user_id then .error .unauthorized
  else if now > token.exp then .error .unauthorized
  else if now < token.iat then .error .unauthorized
  else if token.token_type ≠ ACCESS_TOKEN_TYPE then .error .unauthorized
  else .ok ()

/-- The directory access decision as §4.2 of the spec words it: the owner
always grants both read and write; otherwise a write-capable matching share
grants both, any matching share grants read; otherwise, if a parent exists,
recurse with the same write requirement; a parentless directory with no grant
denies. -/
def canAccessDirSpec : Dir → Nat → Bool → Bool
  | .mk _ _ owner shares parent, user_id, is_write =>
    if owner = user_id then true
    else if is_write && shares.any (fun s => s.subject = user_id && s.can_write) then true
    else if !is_write && shares.any (fun s => s.subject = user_id) then true
    else
      match parent with
      | some p => canAccessDirSpec p user_id is_write
      | none => false

/-- Concrete root directory of user 1 (`§8`'s scenario: user 1 owns root R). -/
def exRoot : Dir := .mk 1 "root" 1 [] none

/-- Concrete directory "docs" of user 1 with a write-capable share for user 2. -/
def exDocs : Dir := .mk 10 "docs" 1 [⟨2, true⟩] (some exRoot)

/-- Concrete subdirectory of "docs" with no share of its own. -/
def exSub : Dir := .mk 20 "sub" 1 [] (some exDocs)

/-- Concrete file inside `exSub` with no share of its own. -/
def exFileA : FileEnt := ⟨30, "a.txt", 1, [], exSub, 10⟩

/-- Concrete root directory of user 2. -/
def otherDir : Dir := .mk 40 "other" 2 [] none

/-- A file table holding a single file of user 1 whose size equals the
per-user ceiling. -/
def filesAtCeiling : List FileRec := [⟨1, 1, LIMIT_USER_TOTAL_SIZE⟩]

/-! ### Helper lemmas -/

theorem dir_write_implies_read : ∀ (d : Dir) (u : Nat),
    d.can_access u true = true → d.can_access u false = true
  | .mk i n o s par, u => by
    unfold Dir.can_access
    by_cases ho : o = u
    · simp [ho]
    · simp only [if_neg ho]
      intro h
      by_cases hw : s.any (fun sh => sh.subject = u && (sh.can_write || !true)) = true
      · have hr : s.any (fun sh => sh.subject = u && (sh.can_write || !false)) = true := by
          simp only [List.any_eq_true, Bool.and_eq_true, decide_eq_true_eq, Bool.not_true,
            Bool.or_false, Bool.not_false, Bool.or_true, Bool.and_true] at hw ⊢
          obtain ⟨sh, hm, h1, _⟩ := hw
          exact ⟨sh, hm, h1⟩
        rw [if_pos hr]
      · rw [if_neg hw] at h
        cases par with
        | none => exact absurd h (by simp)
        | some p =>
          have ih := dir_write_implies_read p u h
          by_cases hrr : s.any (fun sh => sh.subject = u && (sh.can_write || !false)) = true
          · rw [if_pos hrr]
          · rw [if_neg hrr]
            exact ih

theorem file_write_implies_read (f : FileEnt) (u : Nat)
    (h : f.can_access u true = true) : f.can_access u false = true := by
  unfold FileEnt.can_access at h ⊢
  by_cases ho : f.owner = u
  · simp [ho]
  · simp only [if_neg ho] at h ⊢
    by_cases hw : f.shares.any (fun sh => sh.subject = u && (sh.can_write || !true)) = true
    · have hr : f.shares.any (fun sh => sh.subject = u && (sh.can_write || !false)) = true := by
        simp only [List.any_eq_true, Bool.and_eq_true, decide_eq_true_eq, Bool.not_true,
          Bool.or_false, Bool.not_false, Bool.or_true, Bool.and_true] at hw ⊢
        obtain ⟨sh, hm, h1, _⟩ := hw
        exact ⟨sh, hm, h1⟩
      rw [if_pos hr]
    · rw [if_neg hw] at h
      have ih := dir_write_implies_read f.parent_directory u h
      by_cases hrr : f.shares.any (fun sh => sh.subject = u && (sh.can_write || !false)) = true
      · rw [if_pos hrr]
      · rw [if_neg hrr]
        exact ih

/-- A directory grants any request to a user holding a write-capable share
directly on it. -/
theorem Dir.can_access_of_write_share (d : Dir) (u : Nat) (w : Bool)
    (h : ∃ s ∈ d.shares, s.subject = u ∧ s.can_write = true) :
    d.can_access u w = true := by
  cases d with
  | mk i n o s par =>
    unfold Dir.can_access
    by_cases ho : o = u
    · simp [ho]
    · simp only [if_neg ho]
      have ha : s.any (fun sh => sh.subject = u && (sh.can_write || !w)) = true := by
        simp only [List.any_eq_true, Bool.and_eq_true, Bool.or_eq_true, decide_eq_true_eq]
        obtain ⟨sh, hm, h1, h2⟩ := h
        exact ⟨sh, hm, h1, Or.inl h2⟩
      rw [if_pos ha]

/-- A directory grants whatever its parent grants. -/
theorem Dir.can_access_parent (i : Nat) (n : String) (o : Nat) (s : List ShareInfo)
    (p : Dir) (u : Nat) (w : Bool) (h : p.can_access u w = true) :
    (Dir.mk i n o s (some p)).can_access u w = true := by
  unfold Dir.can_access
  by_cases ho : o = u
  · simp [ho]
  · simp only [if_neg ho]
    by_cases ha : s.any (fun sh => sh.subject = u && (sh.can_write || !w)) = true
    · rw [if_pos ha]
    · rw [if_neg ha]
      exact h

/-- Write-capable shares cascade to every descendant directory. -/
theorem Dir.write_share_descendant (U : Nat) (D : Dir)
    (hmem : ∃ s ∈ D.shares, s.subject = U ∧ s.can_write = true) :
    ∀ x, Dir.DescOrSelf D x → x.can_access U true = true := by
  intro x hx
  induction hx with
  | refl => exact Dir.can_access_of_write_share D U true hmem
  | step i n o s p _ ih => exact Dir.can_access_parent i n o s p U true ih

/-- `Dir.can_access` agrees with the spec-worded decision `canAccessDirSpec`. -/
theorem Dir.can_access_eq_spec : ∀ (d : Dir) (u : Nat) (w : Bool),
    d.can_access u w = canAccessDirSpec d u w
  | .mk i n o s none, u, w => by
    unfold Dir.can_access canAccessDirSpec
    by_cases ho : o = u
    · simp [ho]
    · cases w <;> simp [ho]
  | .mk i n o s (some p), u, w => by
    have ih := Dir.can_access_eq_spec p u w
    unfold Dir.can_access canAccessDirSpec
    by_cases ho : o = u
    · simp [ho]
    · cases w <;> simp [ho, ih]

/-- `cycle_walk` succeeds exactly when the moved directory's id does not occur
on the target's parent chain. -/
theorem cycle_walk_eq (cid : Nat) : ∀ t : Dir,
    cycle_walk cid t =
      (if cid ∈ t.chainIds then Except.error Status.cycle_detected else Except.ok ())
  | .mk i n o s par => by
    unfold cycle_walk Dir.chainIds
    by_cases hc : cid = i
    · simp [hc]
    · simp only [if_neg hc]
      cases par with
      | none => simp [hc]
      | some p =>
        show cycle_walk cid p =
          (if cid ∈ i :: p.chainIds then Except.error Status.cycle_detected
           else Except.ok ())
        rw [cycle_walk_eq cid p]
        by_cases hm : cid ∈ p.chainIds <;> simp [hm, hc]

/-- Walking up from a descendant-or-self of `d` encounters `d`'s id. -/
theorem Dir.descendant_chain (d : Dir) : ∀ x, Dir.DescOrSelf d x → d.id ∈ x.chainIds := by
  intro x hx
  induction hx with
  | refl =>
    cases d with
    | mk i n o s par => cases par <;> simp [Dir.chainIds, Dir.id]
  | step i n o s p _ ih =>
    unfold Dir.chainIds
    exact List.mem_cons_of_mem i ih

theorem Dir.setParent_owner (d t : Dir) : (d.setParent t).owner = d.owner := by
  cases d with
  | mk i n o s par => rfl

/-- Closed form of `verify_quota`: it fails exactly when the usage figure of
`ownedUsage` plus the upload strictly exceeds the per-user ceiling. -/
theorem verify_quota_eq (files : List FileRec) (user_id upload : Nat)
    (excluded : Option Nat) :
    verify_quota files user_id upload excluded =
      (if LIMIT_USER_TOTAL_SIZE < ownedUsage files user_id excluded + upload
       then Except.error Status.quota_exceeded
       else Except.ok ()) := by
  unfold verify_quota ownedUsage
  rw [List.filter_filter]
  have hcomm : (fun (a : FileRec) =>
      (match excluded with
       | none => true
       | some e => decide (a.id ≠ e)) && decide (a.owner = user_id))
      = (fun (a : FileRec) => decide (a.owner = user_id) &&
          match excluded with
          | none => true
          | some e => decide (a.id ≠ e)) := by
    funext a
    exact Bool.and_comm _ _
  rw [hcomm]

/-- The owner of a share target always has full access to it. -/
theorem ShareTarget.owner_can_access (t : ShareTarget) (u : Nat) (w : Bool)
    (h : t.owner = u) : t.can_access u w = true := by
  cases t with
  | dir d =>
    cases d with
    | mk i n o s par =>
      unfold ShareTarget.can_access Dir.can_access
      simp only [ShareTarget.owner, Dir.owner] at h
      simp [h]
  | file f =>
    unfold ShareTarget.can_access FileEnt.can_access
    simp only [ShareTarget.owner] at h
    simp [h]

theorem target_write_implies_read (t : ShareTarget) (u : Nat)
    (h : t.can_access u true = true) : t.can_access u false = true := by
  cases t with
  | dir d => exact dir_write_implies_read d u h
  | file f => exact file_write_implies_read f u h

/-! ### Claim theorems -/

/-- C5: quota authorization computes the sum of byte-lengths of all files
currently owned by the user, excluding the file being overwritten when one is
specified, and authorizes exactly when that sum plus the proposed bytes does
not exceed the per-user ceiling; equality to the ceiling is authorized, and
exactly a strict excess fails with quota_exceeded. -/
theorem quota_boundary (files : List FileRec) (user_id upload : Nat)
    (excluded : Option Nat) :
    (verify_quota files user_id upload excluded = .ok () ↔
      ownedUsage files user_id excluded + upload ≤ LIMIT_USER_TOTAL_SIZE) ∧
    (verify_quota files user_id upload excluded = .error .quota_exceeded ↔
      LIMIT_USER_TOTAL_SIZE < ownedUsage files user_id excluded + upload) := by
  rw [verify_quota_eq]
  by_cases h : LIMIT_USER_TOTAL_SIZE < ownedUsage files user_id excluded + upload
  · rw [if_pos h]
    constructor
    · constructor
      · intro hc
        exact absurd hc (by simp)
      · intro hle
        exact absurd hle (by omega)
    · constructor
      · intro _
        exact h
      · intro _
        rfl
  · rw [if_neg h]
    constructor
    · constructor
      · intro _
        omega
      · intro _
        rfl
    · constructor
      · intro hc
        exact absurd hc (by simp)
      · intro hlt
        exact absurd hlt h

/-- C7: for an existing entity, a caller without read permission receives
not_found (so existence is not confirmed, and in particular never
permission_denied), while a caller with read permission but without write
permission on a mutating (write) request receives permission_denied. -/
theorem access_error_taxonomy (user_id : Nat) (e : Entity) (is_write : Bool) :
    (e.can_access user_id false = false →
      verify_can_access user_id (some e) is_write = .error .not_found) ∧
    (e.can_access user_id false = true → is_write = true →
      e.can_access user_id true = false →
      verify_can_access user_id (some e) is_write = .error .permission_denied) := by
  unfold verify_can_access
  constructor
  · intro h
    simp [h]
  · intro h1 h2 h3
    simp [h1, h2, h3]

/-- Witness for C7 at a user-profile entity: user 7 lacking read access to
user 5's profile gets not_found; user 5 reading but not writing their own
profile gets permission_denied on a write request. -/
theorem access_error_taxonomy_witness :
    verify_can_access 7 (some (.user ⟨5⟩)) false = .error .not_found ∧
    verify_can_access 5 (some (.user ⟨5⟩)) true = .error .permission_denied :=
  ⟨(access_error_taxonomy 7 (.user ⟨5⟩) false).1 (by decide),
   (access_error_taxonomy 5 (.user ⟨5⟩) true).2 (by decide) rfl (by decide)⟩

/-- C8: the claim-validation step accepts exactly when the token's subject-id
claim equals the user id named by the request, issued-at ≤ now ≤ expires-at
(equality at either bound accepted), and the token is an access token; every
violating input — a time-window violation (expired token or one issued in the
future), and in particular a subject mismatch even when the time window and
token type are otherwise valid — fails with unauthorized. -/
theorem token_time_and_subject (tok : TokenClaims) (user_id now : Nat) :
    (validate_claims tok user_id now = .ok () ↔
      (tok.user_id = user_id ∧ tok.iat ≤ now ∧ now ≤ tok.exp ∧
       tok.token_type = ACCESS_TOKEN_TYPE)) ∧
    (¬(tok.iat ≤ now ∧ now ≤ tok.exp) →
      validate_claims tok user_id now = .error .unauthorized) ∧
    (tok.user_id ≠ user_id →
      validate_claims tok user_id now = .error .unauthorized) ∧
    (validate_claims tok user_id now = .error .unauthorized ↔
      ¬(tok.user_id = user_id ∧ tok.iat ≤ now ∧ now ≤ tok.exp ∧
        tok.token_type = ACCESS_TOKEN_TYPE)) := by
  unfold validate_claims
  split_ifs with h1 h2 h3 h4 <;> simp_all

/-- Witness for C8: a token for user 5 replayed against user 6's endpoint is
unauthorized although its time window and type are valid; the same token used
by user 5 after its expiry is unauthorized. -/
theorem token_time_and_subject_witness :
    validate_claims ⟨5, "alice", 100, 200, "access"⟩ 6 150 = .error .unauthorized ∧
    validate_claims ⟨5, "alice", 100, 200, "access"⟩ 5 300 = .error .unauthorized :=
  ⟨(token_time_and_subject ⟨5, "alice", 100, 200, "access"⟩ 6 150).2.2.1 (by decide),
   (token_time_and_subject ⟨5, "alice", 100, 200, "access"⟩ 5 300).2.1 (by decide)⟩

/-- C9 as stated is false: removing a contact relation that does not exist
fails with not_found instead of succeeding as a no-op. -/
theorem contact_remove_missing_fails :
    contact_delete [] 2 = .error .not_found := rfl

/-- C9 amended: removeContact removes an existing contact relation, but a
relation that does not exist (including one already removed) fails with
not_found; the operation is not idempotent. -/
theorem contact_delete_behavior (contacts : List Nat) (contact_id : Nat) :
    (contact_id ∈ contacts →
      contact_delete contacts contact_id
        = .ok (contacts.filter (fun c => c ≠ contact_id))) ∧
    (contact_id ∉ contacts →
      contact_delete contacts contact_id = .error .not_found) := by
  unfold contact_delete
  constructor
  · intro h
    rw [if_pos h]
  · intro h
    rw [if_neg h]

/-- Witness for C9's amended claim: removing contact 2 from [2, 3] succeeds
and leaves [3]; removing contact 2 from [3] fails with not_found. -/
theorem contact_delete_behavior_witness :
    contact_delete [2, 3] 2 = .ok [3] ∧
    contact_delete [3] 2 = .error .not_found :=
  ⟨(contact_delete_behavior [2, 3] 2).1 (by decide),
   (contact_delete_behavior [3] 2).2 (by decide)⟩

/-- C10: for every entity kind (user profile, directory, file, share), write
access implies read access. -/
theorem write_access_implies_read (e : Entity) (u : Nat)
    (h : e.can_access u true = true) : e.can_access u false = true := by
  cases e with
  | user uu => simp [Entity.can_access, UserEnt.can_access] at h
  | dir d => exact dir_write_implies_read d u h
  | file f => exact file_write_implies_read f u h
  | share s =>
    unfold Entity.can_access ShareEnt.can_access at h ⊢
    by_cases hi : s.issuer = u
    · simp [hi]
    · simp only [if_neg hi] at h ⊢
      simp at h

/-- Witness for C10: the owner of `exRoot` has write access, hence read
access, to it. -/
theorem write_access_implies_read_witness :
    Entity.can_access (.dir exRoot) 1 false = true :=
  write_access_implies_read (.dir exRoot) 1 (by decide)

/-- C2: the directory access decision is exactly the spec's owner / local
share / parent-recursion / root-denial procedure, and consequently a user
holding a write-capable share on a directory D has write access to every
descendant directory of D and to every file whose containing directory is a
descendant of D, with no share directly on the descendant. -/
theorem directory_access_decision_and_inheritance :
    (∀ (d : Dir) (u : Nat) (w : Bool), d.can_access u w = canAccessDirSpec d u w) ∧
    (∀ (U : Nat) (D x : Dir),
      (∃ s ∈ D.shares, s.subject = U ∧ s.can_write = true) →
      Dir.DescOrSelf D x → x.can_access U true = true) ∧
    (∀ (U : Nat) (D : Dir) (f : FileEnt),
      (∃ s ∈ D.shares, s.subject = U ∧ s.can_write = true) →
      Dir.DescOrSelf D f.parent_directory → f.can_access U true = true) := by
  refine ⟨Dir.can_access_eq_spec, ?_, ?_⟩
  · intro U D x hmem hdesc
    exact Dir.write_share_descendant U D hmem x hdesc
  · intro U D f hmem hdesc
    unfold FileEnt.can_access
    by_cases ho : f.owner = U
    · simp [ho]
    · simp only [if_neg ho]
      by_cases ha : f.shares.any (fun sh => sh.subject = U && (sh.can_write || !true)) = true
      · rw [if_pos ha]
      · rw [if_neg ha]
        exact Dir.write_share_descendant U D hmem _ hdesc

/-- Witness for C2: user 2 holds a write-capable share on `exDocs` and gains
write access to the shared-in subdirectory `exSub` and to the file `exFileA`
inside it, neither of which carries a share of its own. -/
theorem directory_access_decision_and_inheritance_witness :
    Dir.can_access exSub 2 true = true ∧
    FileEnt.can_access exFileA 2 true = true :=
  ⟨directory_access_decision_and_inheritance.2.1 2 exDocs exSub
      ⟨⟨2, true⟩, List.Mem.head _, rfl, rfl⟩
      (Dir.DescOrSelf.step 20 "sub" 1 [] exDocs Dir.DescOrSelf.refl),
   directory_access_decision_and_inheritance.2.2 2 exDocs exFileA
      ⟨⟨2, true⟩, List.Mem.head _, rfl, rfl⟩
      (Dir.DescOrSelf.step 20 "sub" 1 [] exDocs Dir.DescOrSelf.refl)⟩

/-- C6: moving a root directory fails with unmovable_directory; moving a
directory onto itself or onto any of its current descendants fails with
cycle_detected; when those checks pass but the directory, its current parent
and the target parent do not all share one owner, the move fails with
transferral_rejected; and a successful move never changes the owner. -/
theorem move_validation (d t : Dir) :
    (d.parent = none → directory_move d t = .error .unmovable_directory) ∧
    (∀ p, d.parent = some p → Dir.DescOrSelf d t →
      directory_move d t = .error .cycle_detected) ∧
    (∀ p, d.parent = some p → d.id ∉ t.chainIds →
      ¬(p.owner = d.owner ∧ t.owner = d.owner) →
      directory_move d t = .error .transferral_rejected) ∧
    (∀ d', directory_move d t = .ok d' → d'.owner = d.owner) := by
  refine ⟨?_, ?_, ?_, ?_⟩
  · intro h
    unfold directory_move verify_movable
    rw [h]
  · intro p hp hdesc
    have hm : d.id ∈ t.chainIds := Dir.descendant_chain d t hdesc
    unfold directory_move verify_movable
    rw [hp, cycle_walk_eq, if_pos hm]
  · intro p hp hm hno
    unfold directory_move verify_movable
    rw [hp, cycle_walk_eq, if_neg hm]
    show (match verify_same_owner [d.owner, p.owner, t.owner] with
          | .error e => Except.error e
          | .ok () => if p.id = t.id then Except.ok d else Except.ok (d.setParent t))
        = Except.error Status.transferral_rejected
    have hso : verify_same_owner [d.owner, p.owner, t.owner]
        = .error .transferral_rejected := by
      by_cases h1 : p.owner = d.owner
      · by_cases h2 : t.owner = d.owner
        · exact absurd ⟨h1, h2⟩ hno
        · simp [verify_same_owner, h1, h2]
      · simp [verify_same_owner, h1]
    rw [hso]
  · intro d' hok
    unfold directory_move verify_movable at hok
    cases hp : d.parent with
    | none =>
      rw [hp] at hok
      simp at hok
    | some p =>
      rw [hp, cycle_walk_eq] at hok
      by_cases hm : d.id ∈ t.chainIds
      · rw [if_pos hm] at hok
        simp at hok
      · rw [if_neg hm] at hok
        have hok' : (match verify_same_owner [d.owner, p.owner, t.owner] with
            | .error e => Except.error e
            | .ok () => if p.id = t.id then Except.ok d
                        else Except.ok (d.setParent t)) = Except.ok d' := hok
        cases hso : verify_same_owner [d.owner, p.owner, t.owner] with
        | error e =>
          rw [hso] at hok'
          simp at hok'
        | ok u =>
          cases u
          rw [hso] at hok'
          by_cases hpt : p.id = t.id
          · rw [if_pos hpt] at hok'
            have hd : d = d' := by
              injection hok'
            rw [← hd]
          · rw [if_neg hpt] at hok'
            have hd : d.setParent t = d' := by
              injection hok'
            rw [← hd]
            exact Dir.setParent_owner d t

/-- Witness for C6: moving the root `exRoot` fails unmovable_directory; moving
`exDocs` under its own child `exSub` fails cycle_detected; moving `exDocs`
under user 2's directory fails transferral_rejected. -/
theorem move_validation_witness :
    directory_move exRoot exDocs = .error .unmovable_directory ∧
    directory_move exDocs exSub = .error .cycle_detected ∧
    directory_move exDocs otherDir = .error .transferral_rejected :=
  ⟨(move_validation exRoot exDocs).1 rfl,
   (move_validation exDocs exSub).2.1 exRoot rfl
      (Dir.DescOrSelf.step 20 "sub" 1 [] exDocs Dir.DescOrSelf.refl),
   (move_validation exDocs otherDir).2.2.1 exRoot rfl (by decide) (by decide)⟩

/-- C1 fails on the code: a file create checks the quota of the requesting
user, while the created file is owned by the parent directory's owner. With
user 1's usage already at the ceiling, user 2's 10-byte upload into user 1's
directory commits, leaving user 1's owned total strictly above the per-user
ceiling. -/
theorem quota_owner_ceiling_violation :
    file_post_commit filesAtCeiling 2 1 99 10
      = .ok [⟨99, 1, 10⟩, ⟨1, 1, LIMIT_USER_TOTAL_SIZE⟩] ∧
    totalOwnedSize [⟨99, 1, 10⟩, ⟨1, 1, LIMIT_USER_TOTAL_SIZE⟩] 1
      = LIMIT_USER_TOTAL_SIZE + 10 ∧
    LIMIT_USER_TOTAL_SIZE + 10 > LIMIT_USER_TOTAL_SIZE :=
  ⟨rfl, by decide, by decide⟩

/-- C3 as stated is false: a content update whose raw content exceeds the
per-file cap is accepted whenever it fits under the per-user ceiling — the
update path carries no per-file cap check. -/
theorem put_exceeds_single_file_cap_ok :
    file_put_content [⟨5, 1, 0⟩] 1 5 (LIMIT_SINGLE_FILE_SIZE + 1)
      = .ok [⟨5, 1, LIMIT_SINGLE_FILE_SIZE + 1⟩] ∧
    LIMIT_SINGLE_FILE_SIZE + 1 > LIMIT_SINGLE_FILE_SIZE :=
  ⟨rfl, Nat.lt_succ_self _⟩

/-- C3 amended: only file creation checks the per-file cap — a create whose
raw content exceeds the cap fails with quota_exceeded before any quota
accounting and regardless of current usage — while a content update is judged
solely against the per-user ceiling. -/
theorem single_file_cap_create_only :
    (∀ (files : List FileRec) (user_id parent_owner new_id body_len : Nat),
      LIMIT_SINGLE_FILE_SIZE < body_len →
      file_post_commit files user_id parent_owner new_id body_len
        = .error .quota_exceeded) ∧
    (∀ (files : List FileRec) (user_id file_id body_len : Nat),
      file_put_content files user_id file_id body_len = .error .quota_exceeded ↔
        LIMIT_USER_TOTAL_SIZE < ownedUsage files user_id (some file_id) + body_len) := by
  constructor
  · intro files user_id parent_owner new_id body_len h
    unfold file_post_commit
    rw [if_pos h]
  · intro files user_id file_id body_len
    unfold file_put_content
    rw [verify_quota_eq]
    by_cases h : LIMIT_USER_TOTAL_SIZE <
        ownedUsage files user_id (some file_id) + body_len
    · rw [if_pos h]
      simp [h]
    · rw [if_neg h]
      simp [h]

/-- Witness for C3's amended claim: creating a file one byte over the per-file
cap fails with quota_exceeded even with no existing files. -/
theorem single_file_cap_create_only_witness :
    file_post_commit [] 1 1 7 (LIMIT_SINGLE_FILE_SIZE + 1)
      = .error .quota_exceeded :=
  single_file_cap_create_only.1 [] 1 1 7 (LIMIT_SINGLE_FILE_SIZE + 1)
    (Nat.lt_succ_self _)

/-- C4 as stated is false: user 2 holds a write-capable share on `exDocs`
(hence write access), yet creating a share on it fails with permission_denied
because the handler additionally requires the issuer to be the owner. -/
theorem share_requires_ownership_counterexample :
    Dir.can_access exDocs 2 true = true ∧
    share_post 2 3 (.dir exDocs) false = .error .permission_denied :=
  ⟨rfl, rfl⟩

/-- C4 amended: createShare succeeds exactly when the issuer is the owner of
the target and the subject differs from the issuer; with the issuer as owner
and subject equal to the issuer it fails with invalid_subject; an issuer who
holds write access without being the owner gets permission_denied. -/
theorem share_post_owner_only (user_id subject_id : Nat) (target : ShareTarget)
    (w : Bool) :
    (share_post user_id subject_id target w = .ok ⟨user_id, subject_id, w⟩ ↔
      target.owner = user_id ∧ subject_id ≠ user_id) ∧
    (target.owner = user_id → subject_id = user_id →
      share_post user_id subject_id target w = .error .invalid_subject) ∧
    (target.can_access user_id true = true → target.owner ≠ user_id →
      share_post user_id subject_id target w = .error .permission_denied) := by
  refine ⟨⟨?_, ?_⟩, ?_, ?_⟩
  · intro h
    unfold share_post at h
    split_ifs at h with h1 h2 h3 h4
    all_goals simp at h
    exact ⟨of_not_not h3, fun hc => h4 hc.symm⟩
  · intro h
    obtain ⟨ho, hs⟩ := h
    have hw : target.can_access user_id true = true :=
      ShareTarget.owner_can_access target user_id true ho
    have hr : target.can_access user_id false = true :=
      ShareTarget.owner_can_access target user_id false ho
    unfold share_post
    simp [hr, hw, ho, Ne.symm hs]
  · intro ho hs
    have hw : target.can_access user_id true = true :=
      ShareTarget.owner_can_access target user_id true ho
    have hr : target.can_access user_id false = true :=
      ShareTarget.owner_can_access target user_id false ho
    unfold share_post
    simp [hr, hw, ho, hs]
  · intro hw ho
    have hr : target.can_access user_id false = true :=
      target_write_implies_read target user_id hw
    unfold share_post
    simp [hr, hw, ho]

/-- Witness for C4's amended claim: owner 1 shares `exRoot` with user 2
successfully; owner 1 naming themselves as subject gets invalid_subject; user
2, write-capable on `exDocs` but not its owner, gets permission_denied. -/
theorem share_post_owner_only_witness :
    share_post 1 2 (.dir exRoot) true = .ok ⟨1, 2, true⟩ ∧
    share_post 1 1 (.dir exRoot) true = .error .invalid_subject ∧
    share_post 2 7 (.dir exDocs) true = .error .permission_denied :=
  ⟨(share_post_owner_only 1 2 (.dir exRoot) true).1.mpr ⟨rfl, by decide⟩,
   (share_post_owner_only 1 1 (.dir exRoot) true).2.1 rfl rfl,
   (share_post_owner_only 2 7 (.dir exDocs) true).2.2 (by decide) (by decide)⟩

end FileService
